import Mathlib

/-!
Shallow embedding of the shipping-platform backend
(`src/idev_shipping_icp/src/idev_shipping_icp_backend/src/lib.rs`).

Caller identities (`Principal` on the chain) are modelled as natural numbers
with equality only.  `f64` fields are modelled as rationals.  The IC time
source is constant within one message execution, so each update operation
takes a single `now : Nat` parameter.  The four `HashMap`s and the two `u64`
counters of the global state are modelled as association lists and naturals
inside one `State` record; every `#[update]` endpoint becomes a pure function
`State → Except String α × State`.
-/

namespace Idev

/-- Opaque caller identity (candid `Principal`), equality only. -/
abbrev Principal := Nat

inductive UserType where
  | Customer
  | Driver
  | StoreOwner
  | Admin
deriving DecidableEq, Repr

inductive ShipmentStatus where
  | Created
  | PickupScheduled
  | PickedUp
  | InTransit
  | OutForDelivery
  | Delivered
  | Failed
  | Returned
  | Cancelled
deriving DecidableEq, Repr

inductive PaymentStatus where
  | Pending
  | Paid
  | Failed
  | Refunded
deriving DecidableEq, Repr

inductive ReturnStatus where
  | Requested
  | Approved
  | Rejected
  | InProgress
  | Completed
deriving DecidableEq, Repr

structure User where
  id : Principal
  name : String
  email : String
  phone : String
  user_type : UserType
  created_at : Nat
  is_active : Bool
deriving DecidableEq, Repr

structure Coordinates where
  latitude : ℚ
  longitude : ℚ
deriving DecidableEq, Repr

structure Address where
  street : String
  city : String
  state : String
  postal_code : String
  country : String
  coordinates : Option Coordinates
deriving DecidableEq, Repr

structure Dimensions where
  length : ℚ
  width : ℚ
  height : ℚ
deriving DecidableEq, Repr

structure PackageDetails where
  description : String
  weight : ℚ
  dimensions : Dimensions
  value : ℚ
  fragile : Bool
  special_instructions : Option String
deriving DecidableEq, Repr

structure TrackingEvent where
  timestamp : Nat
  status : ShipmentStatus
  location : Option String
  description : String
  updated_by : Principal
deriving DecidableEq, Repr

structure Shipment where
  id : String
  sender_id : Principal
  recipient_name : String
  recipient_phone : String
  pickup_address : Address
  delivery_address : Address
  package_details : PackageDetails
  status : ShipmentStatus
  driver_id : Option Principal
  created_at : Nat
  updated_at : Nat
  estimated_delivery : Option Nat
  actual_delivery : Option Nat
  tracking_history : List TrackingEvent
  payment_status : PaymentStatus
  cost : ℚ
deriving DecidableEq, Repr

structure VehicleInfo where
  vehicle_type : String
  license_plate : String
  capacity : ℚ
deriving DecidableEq, Repr

structure Driver where
  id : Principal
  name : String
  phone : String
  vehicle_info : VehicleInfo
  current_location : Option Coordinates
  is_available : Bool
  rating : ℚ
  total_deliveries : Nat
  joined_at : Nat
deriving DecidableEq, Repr

structure ReturnRequest where
  id : String
  shipment_id : String
  requester_id : Principal
  reason : String
  status : ReturnStatus
  created_at : Nat
  processed_at : Option Nat
deriving DecidableEq, Repr

structure PlatformStats where
  total_users : Nat
  total_shipments : Nat
  total_drivers : Nat
  delivered_shipments : Nat
  pending_shipments : Nat
deriving DecidableEq, Repr

/-- Association-list lookup, modelling `HashMap::get`. -/
def lookupA {K V : Type} [DecidableEq K] : List (K × V) → K → Option V
  | [], _ => none
  | (k2, v) :: rest, k => if k2 = k then some v else lookupA rest k

/-- Association-list insert/overwrite, modelling `HashMap::insert` (and the
effect of mutating through `get_mut`). -/
def insertA {K V : Type} [DecidableEq K] : List (K × V) → K → V → List (K × V)
  | [], k, v => [(k, v)]
  | (k2, v2) :: rest, k, v =>
      if k2 = k then (k, v) :: rest else (k2, v2) :: insertA rest k v

/-- The process-wide state: the four `thread_local!` maps and two counters. -/
structure State where
  users : List (Principal × User)
  shipments : List (String × Shipment)
  drivers : List (Principal × Driver)
  return_requests : List (String × ReturnRequest)
  shipment_counter : Nat
  return_counter : Nat
deriving DecidableEq, Repr

/-- The empty state the canister starts from. -/
def initState : State := ⟨[], [], [], [], 0, 0⟩

/-- Decimal digits of `n` zero-padded to width 6, modelling `format!("{:06}", n)`
(wider numbers keep all their digits). -/
def pad6 (n : Nat) : String :=
  let ds := Nat.repr n
  String.mk (List.replicate (6 - ds.length) '0') ++ ds

/-- The shipment id issued when the counter has been bumped to `c`:
`format!("SH{:06}", c)`. -/
def mkShipmentId (c : Nat) : String := "SH" ++ pad6 c

/-- The return-request id issued when the counter has been bumped to `c`:
`format!("RT{:06}", c)`. -/
def mkReturnId (c : Nat) : String := "RT" ++ pad6 c

/-- `register_user`: fails if the caller already has a User record, otherwise
inserts a record with the caller-supplied role. -/
def register_user (caller : Principal) (now : Nat)
    (name email phone : String) (user_type : UserType) (s : State) :
    Except String User × State :=
  if (lookupA s.users caller).isSome then
    (Except.error "User already registered", s)
  else
    let user : User :=
      { id := caller, name := name, email := email, phone := phone,
        user_type := user_type, created_at := now, is_active := true }
    (Except.ok user, { s with users := insertA s.users caller user })

/-- `get_user`: pure lookup. -/
def get_user (user_id : Principal) (s : State) : Option User :=
  lookupA s.users user_id

/-- `calculate_shipping_cost`: pure of the package only; the two address
arguments are ignored exactly as in the source. -/
def calculate_shipping_cost (_pickup _delivery : Address)
    (package : PackageDetails) : ℚ :=
  let base_cost : ℚ := 10
  let weight_cost : ℚ := package.weight * 2
  let value_cost : ℚ := package.value * (1 / 100)
  let fragile_cost : ℚ := if package.fragile then 5 else 0
  base_cost + weight_cost + value_cost + fragile_cost

/-- `create_shipment`: requires a Customer or StoreOwner User record for the
caller; bumps the shipment counter, computes the cost, and stores a fresh
shipment whose history is seeded with one `Created` event. -/
def create_shipment (caller : Principal) (now : Nat)
    (recipient_name recipient_phone : String)
    (pickup_address delivery_address : Address)
    (package_details : PackageDetails) (s : State) :
    Except String Shipment × State :=
  match lookupA s.users caller with
  | none => (Except.error "User not registered", s)
  | some u =>
    match u.user_type with
    | UserType.Customer | UserType.StoreOwner =>
      let c := s.shipment_counter + 1
      let shipment_id := mkShipmentId c
      let cost := calculate_shipping_cost pickup_address delivery_address package_details
      let shipment : Shipment :=
        { id := shipment_id, sender_id := caller,
          recipient_name := recipient_name, recipient_phone := recipient_phone,
          pickup_address := pickup_address, delivery_address := delivery_address,
          package_details := package_details,
          status := ShipmentStatus.Created, driver_id := none,
          created_at := now, updated_at := now,
          estimated_delivery := none, actual_delivery := none,
          tracking_history :=
            [{ timestamp := now, status := ShipmentStatus.Created,
               location := none, description := "Shipment created",
               updated_by := caller }],
          payment_status := PaymentStatus.Pending, cost := cost }
      (Except.ok shipment,
        { s with shipment_counter := c,
                 shipments := insertA s.shipments shipment_id shipment })
    | _ => (Except.error "Unauthorized to create shipments", s)

/-- `get_shipment`: pure lookup. -/
def get_shipment (shipment_id : String) (s : State) : Option Shipment :=
  lookupA s.shipments shipment_id

/-- `update_shipment_status`: authorization (sender, assigned driver, or
Admin) then an in-place update of status, timestamp, history and, when the
new status is `Delivered`, `actual_delivery`. -/
def update_shipment_status (caller : Principal) (now : Nat)
    (shipment_id : String) (new_status : ShipmentStatus)
    (location : Option String) (description : String) (s : State) :
    Except String Shipment × State :=
  match lookupA s.shipments shipment_id with
  | none => (Except.error "Shipment not found", s)
  | some shipment =>
    let auth : Except String Unit :=
      if shipment.sender_id ≠ caller ∧ shipment.driver_id ≠ some caller then
        match lookupA s.users caller with
        | some u =>
          match u.user_type with
          | UserType.Admin => Except.ok ()
          | _ => Except.error "Unauthorized to update shipment"
        | none => Except.error "User not registered"
      else Except.ok ()
    match auth with
    | Except.error e => (Except.error e, s)
    | Except.ok _ =>
      let updated : Shipment :=
        { shipment with
          status := new_status,
          updated_at := now,
          tracking_history := shipment.tracking_history ++
            [{ timestamp := now, status := new_status, location := location,
               description := description, updated_by := caller }],
          actual_delivery :=
            if new_status = ShipmentStatus.Delivered then some now
            else shipment.actual_delivery }
      (Except.ok updated,
        { s with shipments := insertA s.shipments shipment_id updated })

/-- `register_driver`: fails if the caller already has a Driver record. -/
def register_driver (caller : Principal) (now : Nat)
    (name phone : String) (vehicle_info : VehicleInfo) (s : State) :
    Except String Driver × State :=
  if (lookupA s.drivers caller).isSome then
    (Except.error "Driver already registered", s)
  else
    let driver : Driver :=
      { id := caller, name := name, phone := phone,
        vehicle_info := vehicle_info, current_location := none,
        is_available := true, rating := 5, total_deliveries := 0,
        joined_at := now }
    (Except.ok driver, { s with drivers := insertA s.drivers caller driver })

/-- `assign_driver_to_shipment`: the caller must have a User record and be
Admin or equal to `driver_id`; on success forces `PickupScheduled` and
appends an assignment event.  The Drivers map is never consulted. -/
def assign_driver_to_shipment (caller : Principal) (now : Nat)
    (shipment_id : String) (driver_id : Principal) (s : State) :
    Except String Shipment × State :=
  let is_authorized : Bool :=
    match lookupA s.users caller with
    | some u => u.user_type == UserType.Admin || caller == driver_id
    | none => false
  if ¬ is_authorized then
    (Except.error "Unauthorized to assign driver", s)
  else
    match lookupA s.shipments shipment_id with
    | none => (Except.error "Shipment not found", s)
    | some shipment =>
      let updated : Shipment :=
        { shipment with
          driver_id := some driver_id,
          status := ShipmentStatus.PickupScheduled,
          updated_at := now,
          tracking_history := shipment.tracking_history ++
            [{ timestamp := now, status := ShipmentStatus.PickupScheduled,
               location := none,
               description := "Driver assigned and pickup scheduled",
               updated_by := caller }] }
      (Except.ok updated,
        { s with shipments := insertA s.shipments shipment_id updated })

/-- `create_return_request`: the shipment must exist, the caller must be its
sender, and its status must be `Delivered`; bumps the return counter and
stores a `Requested` request.  The shipment itself is not touched. -/
def create_return_request (caller : Principal) (now : Nat)
    (shipment_id reason : String) (s : State) :
    Except String ReturnRequest × State :=
  match lookupA s.shipments shipment_id with
  | none => (Except.error "Shipment not found", s)
  | some sh =>
    if sh.sender_id ≠ caller then
      (Except.error "Unauthorized to request return", s)
    else if sh.status ≠ ShipmentStatus.Delivered then
      (Except.error "Can only return delivered shipments", s)
    else
      let c := s.return_counter + 1
      let return_id := mkReturnId c
      let rr : ReturnRequest :=
        { id := return_id, shipment_id := shipment_id, requester_id := caller,
          reason := reason, status := ReturnStatus.Requested,
          created_at := now, processed_at := none }
      (Except.ok rr,
        { s with return_counter := c,
                 return_requests := insertA s.return_requests return_id rr })

/-- `get_platform_stats`: read-only full scan producing the five counts. -/
def get_platform_stats (s : State) : PlatformStats :=
  let total_users := s.users.length
  let total_shipments := s.shipments.length
  let total_drivers := s.drivers.length
  let delivered := ((s.shipments.map Prod.snd).filter
    (fun sh => sh.status == ShipmentStatus.Delivered)).length
  let pending := ((s.shipments.map Prod.snd).filter
    (fun sh => !(sh.status == ShipmentStatus.Delivered
                 || sh.status == ShipmentStatus.Cancelled))).length
  { total_users := total_users, total_shipments := total_shipments,
    total_drivers := total_drivers, delivered_shipments := delivered,
    pending_shipments := pending }

/-- One call to any of the six state-mutating endpoints, with its caller and
the message timestamp. -/
inductive Op where
  | opRegisterUser (caller : Principal) (now : Nat)
      (name email phone : String) (user_type : UserType)
  | opRegisterDriver (caller : Principal) (now : Nat)
      (name phone : String) (vehicle_info : VehicleInfo)
  | opCreateShipment (caller : Principal) (now : Nat)
      (recipient_name recipient_phone : String)
      (pickup_address delivery_address : Address)
      (package_details : PackageDetails)
  | opUpdateStatus (caller : Principal) (now : Nat)
      (shipment_id : String) (new_status : ShipmentStatus)
      (location : Option String) (description : String)
  | opAssignDriver (caller : Principal) (now : Nat)
      (shipment_id : String) (driver_id : Principal)
  | opCreateReturn (caller : Principal) (now : Nat)
      (shipment_id reason : String)
deriving DecidableEq, Repr

/-- The state after executing one call (the result value is dropped). -/
def applyOp (s : State) : Op → State
  | Op.opRegisterUser caller now name email phone user_type =>
      (register_user caller now name email phone user_type s).2
  | Op.opRegisterDriver caller now name phone vehicle_info =>
      (register_driver caller now name phone vehicle_info s).2
  | Op.opCreateShipment caller now rn rp pa da pd =>
      (create_shipment caller now rn rp pa da pd s).2
  | Op.opUpdateStatus caller now sid st loc d =>
      (update_shipment_status caller now sid st loc d s).2
  | Op.opAssignDriver caller now sid did =>
      (assign_driver_to_shipment caller now sid did s).2
  | Op.opCreateReturn caller now sid reason =>
      (create_return_request caller now sid reason s).2

/-- The state after a whole sequence of calls. -/
def runOps (s : State) (ops : List Op) : State := ops.foldl applyOp s

/-- Whether the call returns an `Err`, and with which message. -/
def opError (s : State) : Op → Option String
  | Op.opRegisterUser caller now name email phone user_type =>
      match (register_user caller now name email phone user_type s).1 with
      | Except.error e => some e
      | Except.ok _ => none
  | Op.opRegisterDriver caller now name phone vehicle_info =>
      match (register_driver caller now name phone vehicle_info s).1 with
      | Except.error e => some e
      | Except.ok _ => none
  | Op.opCreateShipment caller now rn rp pa da pd =>
      match (create_shipment caller now rn rp pa da pd s).1 with
      | Except.error e => some e
      | Except.ok _ => none
  | Op.opUpdateStatus caller now sid st loc d =>
      match (update_shipment_status caller now sid st loc d s).1 with
      | Except.error e => some e
      | Except.ok _ => none
  | Op.opAssignDriver caller now sid did =>
      match (assign_driver_to_shipment caller now sid did s).1 with
      | Except.error e => some e
      | Except.ok _ => none
  | Op.opCreateReturn caller now sid reason =>
      match (create_return_request caller now sid reason s).1 with
      | Except.error e => some e
      | Except.ok _ => none

/-! ### Decimal-id parsing (used to prove ids distinct) -/

/-- Numeric value of a decimal digit character. -/
def digitVal (c : Char) : Nat := c.toNat - 48

/-- Value of a big-endian decimal digit string. -/
def decValue (l : List Char) : Nat := l.foldl (fun a c => 10 * a + digitVal c) 0

/-- Numeric suffix of an issued id (everything after the 2-char kind tag). -/
def parseId (s : String) : Nat := decValue (s.data.drop 2)

/-! ### Invariants and traces -/

/-- Every stored shipment has a non-empty history whose last event's status
is the shipment's current status. -/
def histInv (s : State) : Prop :=
  ∀ q ∈ s.shipments,
    (Shipment.tracking_history q.2) ≠ [] ∧
      Option.map TrackingEvent.status (Shipment.tracking_history q.2).getLast? =
        some (Shipment.status q.2)

/-- Ids strictly above the shipment counter are not yet in the map.  Holds in
every reachable state and justifies that `create_shipment` never overwrites
an existing shipment. -/
def freshIdsInv (s : State) : Prop :=
  ∀ c, s.shipment_counter < c → lookupA s.shipments (mkShipmentId c) = none

/-- The shipment id issued by one call, when the call is a successful
`create_shipment`. -/
def createdId (s : State) : Op → Option String
  | Op.opCreateShipment caller now rn rp pa da pd =>
      match (create_shipment caller now rn rp pa da pd s).1 with
      | Except.ok sh => some sh.id
      | Except.error _ => none
  | _ => none

/-- The return-request id issued by one call, when the call is a successful
`create_return_request`. -/
def returnedId (s : State) : Op → Option String
  | Op.opCreateReturn caller now sid reason =>
      match (create_return_request caller now sid reason s).1 with
      | Except.ok rr => some rr.id
      | Except.error _ => none
  | _ => none

/-- All shipment ids issued along a sequence of calls, in order. -/
def issuedShipmentIds : State → List Op → List String
  | _, [] => []
  | s, op :: rest => (createdId s op).toList ++ issuedShipmentIds (applyOp s op) rest

/-- All return-request ids issued along a sequence of calls, in order. -/
def issuedReturnIds : State → List Op → List String
  | _, [] => []
  | s, op :: rest => (returnedId s op).toList ++ issuedReturnIds (applyOp s op) rest



/-! ### Sample data used by witnesses and counterexamples -/

def sampleAddress : Address :=
  { street := "1 Main St", city := "Springfield", state := "IL",
    postal_code := "62701", country := "US", coordinates := none }

def samplePackage : PackageDetails :=
  { description := "books", weight := 5, dimensions := ⟨1, 1, 1⟩,
    value := 1000, fragile := true, special_instructions := none }

/-- State after: identity 1 registers as a Customer. -/
def sampleS1 : State :=
  (register_user 1 5 "alice" "a@x" "555" UserType.Customer initState).2

/-- State after: identity 1 additionally creates shipment `SH000001`. -/
def sampleS2 : State :=
  (create_shipment 1 10 "bob" "556" sampleAddress sampleAddress samplePackage sampleS1).2

/-- State after: the sender then marks `SH000001` Delivered at time 20. -/
def sampleS3 : State :=
  (update_shipment_status 1 20 "SH000001" ShipmentStatus.Delivered none "arrived" sampleS2).2

/-- State after: the sender marks `SH000001` Delivered once more, at time 30. -/
def sampleS4 : State :=
  (update_shipment_status 1 30 "SH000001" ShipmentStatus.Delivered none "again" sampleS3).2

/-- State after: `SH000001` is moved to `InTransit` and identity 5 registers
a User record with role `Driver`. -/
def sampleS5 : State :=
  (register_user 5 35 "dan" "d@x" "557" UserType.Driver
    (update_shipment_status 1 32 "SH000001" ShipmentStatus.InTransit none "moving" sampleS2).2).2

/-- A concrete call sequence: a registration, two successful creates, and a
create by an unregistered identity that fails. -/
def sampleOps : List Op :=
  [Op.opRegisterUser 1 5 "alice" "a@x" "555" UserType.Customer,
   Op.opCreateShipment 1 10 "bob" "556" sampleAddress sampleAddress samplePackage,
   Op.opCreateShipment 7 11 "carl" "557" sampleAddress sampleAddress samplePackage,
   Op.opCreateShipment 1 12 "bob" "556" sampleAddress sampleAddress samplePackage]

/-- The call sequence leading to `sampleS3` (register, create, deliver). -/
def ops3 : List Op :=
  [Op.opRegisterUser 1 5 "alice" "a@x" "555" UserType.Customer,
   Op.opCreateShipment 1 10 "bob" "556" sampleAddress sampleAddress samplePackage,
   Op.opUpdateStatus 1 20 "SH000001" ShipmentStatus.Delivered none "arrived"]

/-- Placeholder shipment for total projections out of `Option`. -/
def fallbackShipment : Shipment :=
  { id := "", sender_id := 0, recipient_name := "", recipient_phone := "",
    pickup_address := sampleAddress, delivery_address := sampleAddress,
    package_details := samplePackage, status := ShipmentStatus.Created,
    driver_id := none, created_at := 0, updated_at := 0,
    estimated_delivery := none, actual_delivery := none,
    tracking_history := [], payment_status := PaymentStatus.Pending, cost := 0 }

/-- The stored `SH000001` record in `sampleS3`. -/
def sampleShDelivered : Shipment :=
  match lookupA sampleS3.shipments "SH000001" with
  | some sh => sh
  | none => fallbackShipment

/-- The stored `SH000001` record in `sampleS4`. -/
def sampleShDelivered2 : Shipment :=
  match lookupA sampleS4.shipments "SH000001" with
  | some sh => sh
  | none => fallbackShipment

/-! ### Theorems -/



/-! ### Association-list lemmas -/

theorem mem_insertA {K V : Type} [DecidableEq K] (m : List (K × V)) (k : K) (v : V) :
    ∀ q ∈ insertA m k v, q ∈ m ∨ q = (k, v) := by
  induction m with
  | nil =>
    intro q hq
    simp only [insertA, List.mem_singleton] at hq
    exact Or.inr hq
  | cons p rest ih =>
    intro q hq
    obtain ⟨k2, v2⟩ := p
    simp only [insertA] at hq
    split at hq
    · rcases List.mem_cons.mp hq with h | h
      · exact Or.inr h
      · exact Or.inl (List.mem_cons_of_mem _ h)
    · rcases List.mem_cons.mp hq with h | h
      · exact Or.inl (h ▸ List.mem_cons_self _ _)
      · rcases ih q h with h2 | h2
        · exact Or.inl (List.mem_cons_of_mem _ h2)
        · exact Or.inr h2

theorem lookupA_insertA {K V : Type} [DecidableEq K] (m : List (K × V)) (k k' : K) (v : V) :
    lookupA (insertA m k v) k' = if k = k' then some v else lookupA m k' := by
  induction m with
  | nil => simp [insertA, lookupA]
  | cons p rest ih =>
    obtain ⟨k2, v2⟩ := p
    simp only [insertA]
    by_cases h2 : k2 = k
    · subst h2
      by_cases h' : k2 = k'
      · subst h'; simp [lookupA]
      · simp [lookupA, h']
    · simp only [if_neg h2, lookupA]
      by_cases h' : k2 = k'
      · subst h'
        have : ¬ k = k2 := fun h => h2 h.symm
        simp [lookupA, this, h2]
      · simp [lookupA, h', ih]

/-! ### Claim C1 : the tracking-history invariant -/


theorem histInv_applyOp (s : State) (op : Op) (h : histInv s) :
    histInv (applyOp s op) := by
  cases op with
  | opRegisterUser caller now name email phone ut =>
    simp only [applyOp, register_user]
    split
    · exact h
    · intro q hq; exact h q hq
  | opRegisterDriver caller now name phone vi =>
    simp only [applyOp, register_driver]
    split
    · exact h
    · intro q hq; exact h q hq
  | opCreateShipment caller now rn rp pa da pd =>
    simp only [applyOp, create_shipment]
    split
    · exact h
    · split
      · intro q hq
        rcases mem_insertA _ _ _ q hq with hmem | heq
        · exact h q hmem
        · subst heq
          refine ⟨by simp, ?_⟩
          simp [List.getLast?]
      · intro q hq
        rcases mem_insertA _ _ _ q hq with hmem | heq
        · exact h q hmem
        · subst heq
          refine ⟨by simp, ?_⟩
          simp [List.getLast?]
      · exact h
  | opUpdateStatus caller now sid st loc d =>
    simp only [applyOp, update_shipment_status]
    split
    · exact h
    · next sh hsh =>
      split
      · exact h
      · intro q hq
        rcases mem_insertA _ _ _ q hq with hmem | heq
        · exact h q hmem
        · subst heq
          refine ⟨by simp, ?_⟩
          simp [List.getLast?_concat]
  | opAssignDriver caller now sid did =>
    simp only [applyOp, assign_driver_to_shipment]
    split
    · exact h
    · split
      · exact h
      · intro q hq
        rcases mem_insertA _ _ _ q hq with hmem | heq
        · exact h q hmem
        · subst heq
          refine ⟨by simp, ?_⟩
          simp [List.getLast?_concat]
  | opCreateReturn caller now sid reason =>
    simp only [applyOp, create_return_request]
    split
    · exact h
    · split
      · intro q hq; exact h q hq
      · split
        · intro q hq; exact h q hq
        · intro q hq; exact h q hq

theorem histInv_runOps (ops : List Op) : ∀ s : State, histInv s → histInv (runOps s ops) := by
  induction ops with
  | nil => intro s h; exact h
  | cons op rest ih =>
    intro s h
    have : runOps s (op :: rest) = runOps (applyOp s op) rest := rfl
    rw [this]
    exact ih _ (histInv_applyOp s op h)

/-- Claim C1: for every reachable state produced by any sequence of the
operations, every stored shipment has a non-empty `tracking_history` whose
last element's status equals the shipment's `status` field. -/
theorem C1_tracking_history_invariant (ops : List Op) :
    histInv (runOps initState ops) := by
  apply histInv_runOps
  intro q hq
  simp [initState] at hq

/-- Witness for C1 at a concrete operation sequence. -/
theorem C1_tracking_history_invariant_witness :
    histInv (runOps initState
      [Op.opRegisterUser 1 5 "alice" "a@x" "555" UserType.Customer,
       Op.opCreateShipment 1 10 "bob" "556" sampleAddress sampleAddress samplePackage,
       Op.opUpdateStatus 1 20 "SH000001" ShipmentStatus.InTransit none "moving"]) :=
  C1_tracking_history_invariant _



/-! ### Claim C4 : failed operations leave the state unchanged -/

/-- Claim C4: whenever any of the six mutating endpoints returns an error,
the whole state after the call equals the state before it. -/
theorem C4_error_leaves_state_unchanged (s : State) (op : Op)
    (h : (opError s op).isSome) : applyOp s op = s := by
  cases op with
  | opRegisterUser caller now name email phone ut =>
    by_cases hc : (lookupA s.users caller).isSome
    · simp [applyOp, register_user, hc]
    · simp [opError, register_user, hc] at h
  | opRegisterDriver caller now name phone vi =>
    by_cases hc : (lookupA s.drivers caller).isSome
    · simp [applyOp, register_driver, hc]
    · simp [opError, register_driver, hc] at h
  | opCreateShipment caller now rn rp pa da pd =>
    cases hu : lookupA s.users caller with
    | none => simp [applyOp, create_shipment, hu]
    | some u =>
      cases hut : u.user_type <;>
        simp_all [opError, applyOp, create_shipment, hu]
  | opUpdateStatus caller now sid st loc d =>
    cases hs : lookupA s.shipments sid with
    | none => simp [applyOp, update_shipment_status, hs]
    | some sh =>
      by_cases ha : sh.sender_id ≠ caller ∧ sh.driver_id ≠ some caller
      · cases hu : lookupA s.users caller with
        | none => simp [applyOp, update_shipment_status, hs, ha, hu]
        | some u =>
          cases hut : u.user_type <;>
            simp_all [opError, applyOp, update_shipment_status, hs, ha, hu]
      · simp_all [opError, applyOp, update_shipment_status, hs, ha]
  | opAssignDriver caller now sid did =>
    simp only [opError, applyOp, assign_driver_to_shipment] at h ⊢
    by_cases hauth : (match lookupA s.users caller with
      | some u => u.user_type == UserType.Admin || caller == did
      | none => false) = true
    · simp only [hauth] at h ⊢
      cases hs : lookupA s.shipments sid with
      | none => simp [hs]
      | some sh => simp [hs] at h
    · simp only [Bool.not_eq_true] at hauth
      simp [hauth]
  | opCreateReturn caller now sid reason =>
    cases hs : lookupA s.shipments sid with
    | none => simp [applyOp, create_return_request, hs]
    | some sh =>
      by_cases h1 : sh.sender_id ≠ caller
      · simp [applyOp, create_return_request, hs, h1]
      · by_cases h2 : sh.status ≠ ShipmentStatus.Delivered
        · simp [applyOp, create_return_request, hs, h1, h2]
        · simp_all [opError, create_return_request, hs, h1, h2]

/-- Witness for C4: an unregistered caller's `create_shipment` fails and the
empty state is returned untouched. -/
theorem C4_error_leaves_state_unchanged_witness :
    (opError initState (Op.opCreateShipment 7 10 "bob" "556"
        sampleAddress sampleAddress samplePackage)).isSome = true ∧
    applyOp initState (Op.opCreateShipment 7 10 "bob" "556"
        sampleAddress sampleAddress samplePackage) = initState :=
  ⟨by decide, C4_error_leaves_state_unchanged initState _ (by decide)⟩


/-! ### Round-trip of the 6-digit id format -/

theorem digitVal_digitChar_fin : ∀ d : Fin 10, digitVal (Nat.digitChar d.val) = d.val := by
  decide

theorem digitVal_digitChar (d : Nat) (h : d < 10) : digitVal (Nat.digitChar d) = d :=
  digitVal_digitChar_fin ⟨d, h⟩

theorem toDigitsCore_eq (f : Nat) : ∀ (n : Nat) (l : List Char), 0 < n → n < f →
    Nat.toDigitsCore 10 f n l = ((Nat.digits 10 n).map Nat.digitChar).reverse ++ l := by
  induction f with
  | zero => intro n l hpos hlt; omega
  | succ f ih =>
    intro n l hpos hlt
    simp only [Nat.toDigitsCore]
    by_cases hdiv : n / 10 = 0
    · have hn10 : n < 10 := (Nat.div_eq_zero_iff (by norm_num)).mp hdiv
      rw [if_pos hdiv, Nat.digits_of_lt 10 n (Nat.pos_iff_ne_zero.mp hpos) hn10,
        Nat.mod_eq_of_lt hn10]
      simp
    · rw [if_neg hdiv]
      have hge : 10 ≤ n := by
        by_contra hlt10
        exact hdiv (Nat.div_eq_zero_iff (by norm_num) |>.mpr (by omega))
      have hdivlt : n / 10 < f := by
        have := Nat.div_lt_self hpos (by norm_num : 1 < 10)
        omega
      rw [ih (n / 10) (Nat.digitChar (n % 10) :: l) (Nat.pos_of_ne_zero hdiv) hdivlt,
        Nat.digits_def' (by norm_num : 1 < 10) hpos]
      simp

theorem toDigits_eq (n : Nat) (h : 0 < n) :
    Nat.toDigits 10 n = ((Nat.digits 10 n).map Nat.digitChar).reverse := by
  rw [Nat.toDigits, toDigitsCore_eq (n + 1) n [] h (Nat.lt_succ_self n), List.append_nil]

theorem foldr_decode (L : List Nat) (h : ∀ d ∈ L, d < 10) :
    L.foldr (fun d a => 10 * a + digitVal (Nat.digitChar d)) 0 = Nat.ofDigits 10 L := by
  induction L with
  | nil => simp [Nat.ofDigits]
  | cons d L ih =>
    simp only [List.foldr_cons]
    rw [digitVal_digitChar d (h d (List.mem_cons_self _ _)),
      ih (fun x hx => h x (List.mem_cons_of_mem _ hx)), Nat.ofDigits_cons]
    ring

theorem decValue_repr (n : Nat) : decValue (Nat.repr n).data = n := by
  rcases Nat.eq_zero_or_pos n with h | h
  · subst h; decide
  · have hdata : (Nat.repr n).data = Nat.toDigits 10 n := rfl
    rw [hdata, toDigits_eq n h]
    show (((Nat.digits 10 n).map Nat.digitChar).reverse).foldl
      (fun a c => 10 * a + digitVal c) 0 = n
    rw [List.foldl_reverse, List.foldr_map,
      foldr_decode (Nat.digits 10 n) (fun d hd => Nat.digits_lt_base (by norm_num) hd),
      Nat.ofDigits_digits]

theorem decValue_replicate_zero (k : Nat) (l : List Char) :
    decValue (List.replicate k '0' ++ l) = decValue l := by
  induction k with
  | zero => simp
  | succ k ih =>
    show (('0' :: (List.replicate k '0' ++ l)).foldl (fun a c => 10 * a + digitVal c) 0)
      = decValue l
    rw [List.foldl_cons]
    have h0 : (10 * 0 + digitVal '0') = 0 := by decide
    rw [h0]
    exact ih

theorem pad6_data (n : Nat) :
    (pad6 n).data = List.replicate (6 - (Nat.repr n).length) '0' ++ (Nat.repr n).data := by
  rfl

theorem parseId_append_pad6 (p : String) (h : p.data.length = 2) (n : Nat) :
    parseId (p ++ pad6 n) = n := by
  show decValue (((p ++ pad6 n).data).drop 2) = n
  rw [String.data_append, ← h, List.drop_left, pad6_data,
    decValue_replicate_zero, decValue_repr]

theorem parseId_mkShipmentId (n : Nat) : parseId (mkShipmentId n) = n :=
  parseId_append_pad6 "SH" rfl n

theorem parseId_mkReturnId (n : Nat) : parseId (mkReturnId n) = n :=
  parseId_append_pad6 "RT" rfl n

theorem mkShipmentId_injective : Function.Injective mkShipmentId := by
  intro m n h
  rw [← parseId_mkShipmentId m, ← parseId_mkShipmentId n, h]

theorem mkReturnId_injective : Function.Injective mkReturnId := by
  intro m n h
  rw [← parseId_mkReturnId m, ← parseId_mkReturnId n, h]

/-! ### Freshness of generated ids in reachable states -/

theorem freshIdsInv_init : freshIdsInv initState := by
  intro c _
  rfl

theorem freshIdsInv_applyOp (s : State) (op : Op) (h : freshIdsInv s) :
    freshIdsInv (applyOp s op) := by
  cases op with
  | opRegisterUser caller now name email phone ut =>
    simp only [applyOp, register_user]
    split
    · exact h
    · intro c hc; exact h c hc
  | opRegisterDriver caller now name phone vi =>
    simp only [applyOp, register_driver]
    split
    · exact h
    · intro c hc; exact h c hc
  | opCreateShipment caller now rn rp pa da pd =>
    simp only [applyOp, create_shipment]
    cases hu : lookupA s.users caller with
    | none => exact h
    | some u =>
      dsimp only
      cases hut : u.user_type
      case Customer | StoreOwner =>
        dsimp only
        intro c hc
        have hc' : s.shipment_counter + 1 < c := hc
        rw [lookupA_insertA]
        rw [if_neg]
        · exact h c (by omega)
        · intro heq
          have := mkShipmentId_injective heq
          omega
      case Driver | Admin => exact h
  | opUpdateStatus caller now sid st loc d =>
    simp only [applyOp, update_shipment_status]
    cases hs : lookupA s.shipments sid with
    | none => exact h
    | some sh =>
      dsimp only
      split
      · exact h
      · intro c hc
        have hc' : s.shipment_counter < c := hc
        rw [lookupA_insertA]
        rw [if_neg]
        · exact h c hc'
        · intro heq
          rw [heq, h c hc'] at hs
          cases hs
  | opAssignDriver caller now sid did =>
    simp only [applyOp, assign_driver_to_shipment]
    split
    · exact h
    · cases hs : lookupA s.shipments sid with
      | none => exact h
      | some sh =>
        dsimp only
        intro c hc
        have hc' : s.shipment_counter < c := hc
        rw [lookupA_insertA]
        rw [if_neg]
        · exact h c hc'
        · intro heq
          rw [heq, h c hc'] at hs
          cases hs
  | opCreateReturn caller now sid reason =>
    simp only [applyOp, create_return_request]
    cases hs : lookupA s.shipments sid with
    | none => exact h
    | some sh =>
      dsimp only
      split
      · exact h
      · split
        · exact h
        · intro c hc; exact h c hc

theorem freshIdsInv_runOps (ops : List Op) : ∀ s : State, freshIdsInv s → freshIdsInv (runOps s ops) := by
  induction ops with
  | nil => intro s h; exact h
  | cons op rest ih =>
    intro s h
    exact ih _ (freshIdsInv_applyOp s op h)

/-! ### Claim C3 : the life of `actual_delivery` -/

theorem actualDelivery_step (s : State) (hfresh : freshIdsInv s) (op : Op) (sid : String)
    (sh sh' : Shipment)
    (hpre : lookupA s.shipments sid = some sh)
    (hpost : lookupA (applyOp s op).shipments sid = some sh') :
    sh'.actual_delivery = sh.actual_delivery ∨
      ∃ caller now loc descr,
        op = Op.opUpdateStatus caller now sid ShipmentStatus.Delivered loc descr ∧
          sh'.actual_delivery = some now := by
  cases op with
  | opRegisterUser caller now name email phone ut =>
    left
    simp only [applyOp, register_user] at hpost
    split at hpost <;>
    · dsimp only at hpost
      rw [hpre] at hpost
      injection hpost with h
      rw [h]
  | opRegisterDriver caller now name phone vi =>
    left
    simp only [applyOp, register_driver] at hpost
    split at hpost <;>
    · dsimp only at hpost
      rw [hpre] at hpost
      injection hpost with h
      rw [h]
  | opCreateShipment caller now rn rp pa da pd =>
    left
    simp only [applyOp, create_shipment] at hpost
    cases hu : lookupA s.users caller with
    | none =>
      rw [hu] at hpost
      dsimp only at hpost
      rw [hpre] at hpost
      injection hpost with h
      rw [h]
    | some u =>
      rw [hu] at hpost
      dsimp only at hpost
      cases hut : u.user_type
      case Driver | Admin =>
        rw [hut] at hpost
        dsimp only at hpost
        rw [hpre] at hpost
        injection hpost with h
        rw [h]
      case Customer | StoreOwner =>
        rw [hut] at hpost
        dsimp only at hpost
        rw [lookupA_insertA] at hpost
        by_cases hk : mkShipmentId (s.shipment_counter + 1) = sid
        · have h0 := hfresh (s.shipment_counter + 1) (Nat.lt_succ_self _)
          rw [hk, hpre] at h0
          cases h0
        · rw [if_neg hk, hpre] at hpost
          injection hpost with h
          rw [h]
  | opUpdateStatus caller now sid2 st loc descr =>
    simp only [applyOp, update_shipment_status] at hpost
    cases hs : lookupA s.shipments sid2 with
    | none =>
      left
      rw [hs] at hpost
      dsimp only at hpost
      rw [hpre] at hpost
      injection hpost with h
      rw [h]
    | some sh0 =>
      rw [hs] at hpost
      dsimp only at hpost
      split at hpost
      · left
        rw [hpre] at hpost
        injection hpost with h
        rw [h]
      · dsimp only at hpost
        rw [lookupA_insertA] at hpost
        by_cases hk : sid2 = sid
        · rw [if_pos hk] at hpost
          injection hpost with h
          subst hk
          rw [hpre] at hs
          injection hs with h0
          by_cases hst : st = ShipmentStatus.Delivered
          · right
            refine ⟨caller, now, loc, descr, by rw [hst], ?_⟩
            rw [← h]
            dsimp only
            rw [if_pos hst]
          · left
            rw [← h]
            dsimp only
            rw [if_neg hst, ← h0]
        · left
          rw [if_neg hk, hpre] at hpost
          injection hpost with h
          rw [h]
  | opAssignDriver caller now sid2 did =>
    left
    simp only [applyOp, assign_driver_to_shipment] at hpost
    split at hpost
    · rw [hpre] at hpost
      injection hpost with h
      rw [h]
    · cases hs : lookupA s.shipments sid2 with
      | none =>
        rw [hs] at hpost
        dsimp only at hpost
        rw [hpre] at hpost
        injection hpost with h
        rw [h]
      | some sh0 =>
        rw [hs] at hpost
        dsimp only at hpost
        rw [lookupA_insertA] at hpost
        by_cases hk : sid2 = sid
        · rw [if_pos hk] at hpost
          injection hpost with h
          subst hk
          rw [hpre] at hs
          injection hs with h0
          rw [← h]
          dsimp only
          rw [← h0]
        · rw [if_neg hk, hpre] at hpost
          injection hpost with h
          rw [h]
  | opCreateReturn caller now sid2 reason =>
    left
    simp only [applyOp, create_return_request] at hpost
    cases hs : lookupA s.shipments sid2 with
    | none =>
      rw [hs] at hpost
      dsimp only at hpost
      rw [hpre] at hpost
      injection hpost with h
      rw [h]
    | some sh0 =>
      rw [hs] at hpost
      dsimp only at hpost
      split at hpost <;>
        first
        | · dsimp only at hpost
            rw [hpre] at hpost
            injection hpost with h
            rw [h]
        | · split at hpost <;>
            · dsimp only at hpost
              rw [hpre] at hpost
              injection hpost with h
              rw [h]

end Idev

namespace Idev

/-- Counterexample to claim C3 as stated: after `SH000001` is marked
Delivered at time 20, a second `update_shipment_status(..., Delivered, ...)`
at time 30 overwrites `actual_delivery` from `some 20` to `some 30`, so the
field is not written at most once. -/
theorem C3_actual_delivery_counterexample :
    sampleS4 = (update_shipment_status 1 30 "SH000001" ShipmentStatus.Delivered
        none "again" sampleS3).2 ∧
    (lookupA sampleS3.shipments "SH000001").map Shipment.actual_delivery = some (some 20) ∧
    (lookupA sampleS4.shipments "SH000001").map Shipment.actual_delivery = some (some 30) :=
  ⟨rfl, by decide, by decide⟩

/-- When `update_shipment_status` succeeds, its result is exactly the stored
shipment updated in place: status replaced, one event appended, and
`actual_delivery := some now` whenever the new status is `Delivered`,
regardless of the field's prior value. -/
theorem update_ok_shape (s : State) (caller : Principal) (now : Nat)
    (sid : String) (st : ShipmentStatus) (loc : Option String) (descr : String)
    (sh2 : Shipment)
    (h : (update_shipment_status caller now sid st loc descr s).1 = Except.ok sh2) :
    ∃ sh0, lookupA s.shipments sid = some sh0 ∧
      sh2 = { sh0 with
        status := st, updated_at := now,
        tracking_history := sh0.tracking_history ++
          [{ timestamp := now, status := st, location := loc,
             description := descr, updated_by := caller }],
        actual_delivery :=
          if st = ShipmentStatus.Delivered then some now else sh0.actual_delivery } ∧
      (update_shipment_status caller now sid st loc descr s).2 =
        { s with shipments := insertA s.shipments sid sh2 } := by
  cases hs : lookupA s.shipments sid with
  | none => simp [update_shipment_status, hs] at h
  | some sh0 =>
    refine ⟨sh0, rfl, ?_⟩
    by_cases hcond : sh0.sender_id ≠ caller ∧ sh0.driver_id ≠ some caller
    · cases hu : lookupA s.users caller with
      | none => simp [update_shipment_status, hs, hcond, hu] at h
      | some u =>
        cases hut : u.user_type with
        | Admin =>
          have h1 : (update_shipment_status caller now sid st loc descr s).1 =
              Except.ok { sh0 with
                status := st, updated_at := now,
                tracking_history := sh0.tracking_history ++
                  [{ timestamp := now, status := st, location := loc,
                     description := descr, updated_by := caller }],
                actual_delivery :=
                  if st = ShipmentStatus.Delivered then some now
                  else sh0.actual_delivery } := by
            simp [update_shipment_status, hs, hcond, hu, hut]
          rw [h1] at h
          injection h with h2
          subst h2
          refine ⟨rfl, ?_⟩
          simp [update_shipment_status, hs, hcond, hu, hut]
        | Customer => simp [update_shipment_status, hs, hcond, hu, hut] at h
        | Driver => simp [update_shipment_status, hs, hcond, hu, hut] at h
        | StoreOwner => simp [update_shipment_status, hs, hcond, hu, hut] at h
    · have h1 : (update_shipment_status caller now sid st loc descr s).1 =
          Except.ok { sh0 with
            status := st, updated_at := now,
            tracking_history := sh0.tracking_history ++
              [{ timestamp := now, status := st, location := loc,
                 description := descr, updated_by := caller }],
            actual_delivery :=
              if st = ShipmentStatus.Delivered then some now
              else sh0.actual_delivery } := by
        simp [update_shipment_status, hs, hcond]
      rw [h1] at h
      injection h with h2
      subst h2
      refine ⟨rfl, ?_⟩
      simp [update_shipment_status, hs, hcond]

/-- Every successful Delivered-update writes `actual_delivery = some now` at
the updated shipment, whatever value the field held before. -/
theorem update_delivered_overwrites (s : State) (caller : Principal) (now : Nat)
    (sid : String) (loc : Option String) (descr : String) (sh' : Shipment)
    (hok : (update_shipment_status caller now sid ShipmentStatus.Delivered loc descr s).1.isOk
      = true)
    (hpost : lookupA ((update_shipment_status caller now sid ShipmentStatus.Delivered
        loc descr s).2).shipments sid = some sh') :
    sh'.actual_delivery = some now := by
  obtain ⟨sh2, h⟩ : ∃ sh2,
      (update_shipment_status caller now sid ShipmentStatus.Delivered loc descr s).1 =
        Except.ok sh2 := by
    cases hres : (update_shipment_status caller now sid ShipmentStatus.Delivered
        loc descr s).1 with
    | ok sh2 => exact ⟨sh2, rfl⟩
    | error e =>
      rw [hres] at hok
      cases hok
  obtain ⟨sh0, hs0, hshape, hstate⟩ :=
    update_ok_shape s caller now sid ShipmentStatus.Delivered loc descr sh2 h
  rw [hstate] at hpost
  dsimp only at hpost
  rw [lookupA_insertA, if_pos rfl] at hpost
  injection hpost with h2
  subst h2
  rw [hshape]
  simp

/-- Claim C3 (amended): in every reachable state, one further operation
either leaves a stored shipment's `actual_delivery` unchanged or is an
`update_shipment_status` of that shipment to `Delivered`; moreover EVERY
successful Delivered-update of the shipment writes `actual_delivery = now`,
overwriting whatever value the field held before (no idempotence guard), and
the field is never reset to `None`. -/
theorem C3_actual_delivery_amended (ops : List Op) (op : Op) (sid : String)
    (sh sh' : Shipment)
    (hpre : lookupA (runOps initState ops).shipments sid = some sh)
    (hpost : lookupA (applyOp (runOps initState ops) op).shipments sid = some sh') :
    (sh'.actual_delivery = sh.actual_delivery ∨
      ∃ caller now loc descr,
        op = Op.opUpdateStatus caller now sid ShipmentStatus.Delivered loc descr ∧
          sh'.actual_delivery = some now) ∧
    (∀ caller now loc descr,
      op = Op.opUpdateStatus caller now sid ShipmentStatus.Delivered loc descr →
      (update_shipment_status caller now sid ShipmentStatus.Delivered loc descr
        (runOps initState ops)).1.isOk = true →
      sh'.actual_delivery = some now) ∧
    (sh.actual_delivery ≠ none → sh'.actual_delivery ≠ none) := by
  have hstep := actualDelivery_step (runOps initState ops)
    (freshIdsInv_runOps ops initState freshIdsInv_init) op sid sh sh' hpre hpost
  refine ⟨hstep, ?_, ?_⟩
  · intro caller now loc descr hop hok
    subst hop
    exact update_delivered_overwrites (runOps initState ops) caller now sid loc descr
      sh' hok hpost
  · intro hne
    rcases hstep with h | ⟨c, n, l, d, _, h⟩
    · rw [h]; exact hne
    · rw [h]; simp

/-- Witness for the amended C3 at the concrete repeat-delivery scenario. -/
theorem C3_actual_delivery_amended_witness :
    ((sampleShDelivered2.actual_delivery = sampleShDelivered.actual_delivery ∨
      ∃ caller now loc descr,
        Op.opUpdateStatus 1 30 "SH000001" ShipmentStatus.Delivered none "again" =
          Op.opUpdateStatus caller now "SH000001" ShipmentStatus.Delivered loc descr ∧
          sampleShDelivered2.actual_delivery = some now) ∧
    (∀ caller now loc descr,
      Op.opUpdateStatus 1 30 "SH000001" ShipmentStatus.Delivered none "again" =
        Op.opUpdateStatus caller now "SH000001" ShipmentStatus.Delivered loc descr →
      (update_shipment_status caller now "SH000001" ShipmentStatus.Delivered loc descr
        (runOps initState ops3)).1.isOk = true →
      sampleShDelivered2.actual_delivery = some now) ∧
    (sampleShDelivered.actual_delivery ≠ none → sampleShDelivered2.actual_delivery ≠ none)) :=
  C3_actual_delivery_amended ops3 _ "SH000001" sampleShDelivered sampleShDelivered2 rfl rfl

/-! ### Claim C2 : authorization of `assign_driver_to_shipment` -/

/-- Counterexample to claim C2 as stated: identity 5 has no User record, the
shipment exists, and the call with `caller = driver_id = 5` is rejected with
`Unauthorized` instead of being permitted. -/
theorem C2_assign_authorization_counterexample :
    lookupA sampleS2.users 5 = none ∧
    (lookupA sampleS2.shipments "SH000001").isSome = true ∧
    (assign_driver_to_shipment 5 40 "SH000001" 5 sampleS2).1 =
      Except.error "Unauthorized to assign driver" :=
  ⟨by decide, by decide, rfl⟩

/-- Claim C2 (amended): `assign_driver_to_shipment` returns `Unauthorized`
exactly when the caller does not resolve to a User record that is Admin or
whose identity equals `driver_id`; in particular self-assignment is permitted
only when the caller has a User record (of any role), and an authorized
caller succeeds whenever the shipment exists. -/
theorem C2_assign_authorization_amended (s : State) (caller : Principal) (now : Nat)
    (sid : String) (did : Principal) :
    ((assign_driver_to_shipment caller now sid did s).1 =
        Except.error "Unauthorized to assign driver" ↔
      ¬ ∃ u, lookupA s.users caller = some u ∧
          (u.user_type = UserType.Admin ∨ caller = did)) ∧
    (∀ u, lookupA s.users caller = some u →
      (u.user_type = UserType.Admin ∨ caller = did) →
      (lookupA s.shipments sid).isSome →
      ∃ sh, (assign_driver_to_shipment caller now sid did s).1 = Except.ok sh) := by
  cases hu : lookupA s.users caller with
  | none =>
    constructor
    · apply iff_of_true
      · simp [assign_driver_to_shipment, hu]
      · rintro ⟨u, hu2, _⟩
        cases hu2
    · intro u hu2
      cases hu2
  | some u =>
    by_cases had : u.user_type = UserType.Admin ∨ caller = did
    · have hb : (u.user_type == UserType.Admin || caller == did) = true := by
        rcases had with h | h <;> simp [h]
      constructor
      · apply iff_of_false
        · cases hs : lookupA s.shipments sid with
          | none => simp [assign_driver_to_shipment, hu, hb, hs]
          | some sh => simp [assign_driver_to_shipment, hu, hb, hs]
        · intro hno
          exact hno ⟨u, rfl, had⟩
      · intro u2 hu2 hadu2 hsome
        cases hs : lookupA s.shipments sid with
        | none => rw [hs] at hsome; cases hsome
        | some sh =>
          have hok : (assign_driver_to_shipment caller now sid did s).1 =
              Except.ok
                { sh with
                  driver_id := some did,
                  status := ShipmentStatus.PickupScheduled,
                  updated_at := now,
                  tracking_history := sh.tracking_history ++
                    [{ timestamp := now, status := ShipmentStatus.PickupScheduled,
                       location := none,
                       description := "Driver assigned and pickup scheduled",
                       updated_by := caller }] } := by
            simp [assign_driver_to_shipment, hu, hb, hs]
          exact ⟨_, hok⟩
    · have hb : (u.user_type == UserType.Admin || caller == did) = false := by
        push_neg at had
        simp only [Bool.or_eq_false_iff, beq_eq_false_iff_ne, ne_eq]
        exact ⟨had.1, had.2⟩
      constructor
      · apply iff_of_true
        · simp [assign_driver_to_shipment, hu, hb]
        · rintro ⟨u2, hu2, hadu2⟩
          injection hu2 with h
          subst h
          exact had hadu2
      · intro u2 hu2 hadu2 _
        injection hu2 with h
        subst h
        exact absurd hadu2 had

/-- Witness for the amended C2: in `sampleS5` identity 5 has a (Driver-role)
User record, so its self-assignment succeeds. -/
theorem C2_assign_authorization_amended_witness :
    ∃ sh, (assign_driver_to_shipment 5 41 "SH000001" 5 sampleS5).1 = Except.ok sh := by
  obtain ⟨u, hu⟩ : ∃ u, lookupA sampleS5.users 5 = some u := ⟨_, rfl⟩
  exact (C2_assign_authorization_amended sampleS5 5 41 "SH000001" 5).2 u hu
    (Or.inr rfl) (by decide)

/-! ### Claim C5 : `create_return_request` full case analysis -/

/-- Claim C5: `create_return_request` returns `NotFound` for a missing
shipment, `Unauthorized` for a non-sender, `InvalidState` for a non-Delivered
shipment, and otherwise succeeds with a `Requested` record carrying
`processed_at = none`; the shipments map is never touched. -/
theorem C5_create_return_request_spec (s : State) (caller : Principal) (now : Nat)
    (sid reason : String) :
    (lookupA s.shipments sid = none →
      create_return_request caller now sid reason s =
        (Except.error "Shipment not found", s)) ∧
    (∀ sh, lookupA s.shipments sid = some sh → sh.sender_id ≠ caller →
      create_return_request caller now sid reason s =
        (Except.error "Unauthorized to request return", s)) ∧
    (∀ sh, lookupA s.shipments sid = some sh → sh.sender_id = caller →
      sh.status ≠ ShipmentStatus.Delivered →
      create_return_request caller now sid reason s =
        (Except.error "Can only return delivered shipments", s)) ∧
    (∀ sh, lookupA s.shipments sid = some sh → sh.sender_id = caller →
      sh.status = ShipmentStatus.Delivered →
      (create_return_request caller now sid reason s).1 =
        Except.ok
          { id := mkReturnId (s.return_counter + 1), shipment_id := sid,
            requester_id := caller, reason := reason,
            status := ReturnStatus.Requested, created_at := now,
            processed_at := none }) ∧
    (create_return_request caller now sid reason s).2.shipments = s.shipments := by
  refine ⟨?_, ?_, ?_, ?_, ?_⟩
  · intro h
    simp [create_return_request, h]
  · intro sh h hne
    simp [create_return_request, h, hne]
  · intro sh h hsender hst
    simp [create_return_request, h, hsender, hst]
  · intro sh h hsender hst
    simp [create_return_request, h, hsender, hst]
  · cases h : lookupA s.shipments sid with
    | none => simp [create_return_request, h]
    | some sh =>
      by_cases h1 : sh.sender_id = caller
      · by_cases h2 : sh.status = ShipmentStatus.Delivered
        · simp [create_return_request, h, h1, h2]
        · simp [create_return_request, h, h1, h2]
      · simp [create_return_request, h, h1]

/-- Witness for C5: the NotFound branch on the empty state. -/
theorem C5_create_return_request_spec_witness :
    create_return_request 1 50 "SH000042" "broken" initState =
      (Except.error "Shipment not found", initState) :=
  (C5_create_return_request_spec initState 1 50 "SH000042" "broken").1 rfl

/-! ### Success-shape helper lemmas -/

theorem assign_success_shape (s : State) (caller : Principal) (now : Nat)
    (sid : String) (did : Principal) (u : User) (sh : Shipment)
    (hu : lookupA s.users caller = some u)
    (hauth : u.user_type = UserType.Admin ∨ caller = did)
    (hsh : lookupA s.shipments sid = some sh) :
    (let upd : Shipment :=
      { sh with
        driver_id := some did,
        status := ShipmentStatus.PickupScheduled,
        updated_at := now,
        tracking_history := sh.tracking_history ++
          [{ timestamp := now, status := ShipmentStatus.PickupScheduled,
             location := none,
             description := "Driver assigned and pickup scheduled",
             updated_by := caller }] }
     assign_driver_to_shipment caller now sid did s =
       (Except.ok upd, { s with shipments := insertA s.shipments sid upd })) := by
  have hb : (u.user_type == UserType.Admin || caller == did) = true := by
    rcases hauth with h | h <;> simp [h]
  simp [assign_driver_to_shipment, hu, hb, hsh]

theorem update_ok_admin (s : State) (caller : Principal) (now : Nat)
    (sid : String) (st : ShipmentStatus) (loc : Option String) (descr : String)
    (u : User) (sh : Shipment)
    (hu : lookupA s.users caller = some u)
    (hadmin : u.user_type = UserType.Admin)
    (hs : lookupA s.shipments sid = some sh) :
    ∃ sh2, (update_shipment_status caller now sid st loc descr s).1 = Except.ok sh2 := by
  by_cases hcond : sh.sender_id ≠ caller ∧ sh.driver_id ≠ some caller
  · refine ⟨{ sh with
      status := st, updated_at := now,
      tracking_history := sh.tracking_history ++
        [{ timestamp := now, status := st, location := loc,
           description := descr, updated_by := caller }],
      actual_delivery :=
        if st = ShipmentStatus.Delivered then some now else sh.actual_delivery }, ?_⟩
    simp [update_shipment_status, hs, hcond, hu, hadmin]
  · refine ⟨{ sh with
      status := st, updated_at := now,
      tracking_history := sh.tracking_history ++
        [{ timestamp := now, status := st, location := loc,
           description := descr, updated_by := caller }],
      actual_delivery :=
        if st = ShipmentStatus.Delivered then some now else sh.actual_delivery }, ?_⟩
    simp [update_shipment_status, hs, hcond, hu, hadmin]

/-! ### Claim C6 : effect of a successful assignment -/

/-- Claim C6: for an authorized caller and an existing shipment,
`assign_driver_to_shipment` succeeds, stores `driver_id`, forces the status
to `PickupScheduled` whatever the prior status was, and appends exactly one
`PickupScheduled` tracking event; no hypothesis mentions the Drivers map, so
an unregistered `driver_id` succeeds as well. -/
theorem C6_assign_driver_success (s : State) (caller : Principal) (now : Nat)
    (sid : String) (did : Principal) (u : User) (sh : Shipment)
    (hu : lookupA s.users caller = some u)
    (hauth : u.user_type = UserType.Admin ∨ caller = did)
    (hsh : lookupA s.shipments sid = some sh) :
    ∃ upd : Shipment,
      (assign_driver_to_shipment caller now sid did s).1 = Except.ok upd ∧
      upd.driver_id = some did ∧
      upd.status = ShipmentStatus.PickupScheduled ∧
      upd.tracking_history = sh.tracking_history ++
        [{ timestamp := now, status := ShipmentStatus.PickupScheduled,
           location := none,
           description := "Driver assigned and pickup scheduled",
           updated_by := caller }] ∧
      upd.actual_delivery = sh.actual_delivery ∧
      (assign_driver_to_shipment caller now sid did s).2.shipments =
        insertA s.shipments sid upd := by
  have h := assign_success_shape s caller now sid did u sh hu hauth hsh
  dsimp only at h
  refine ⟨{ sh with
      driver_id := some did,
      status := ShipmentStatus.PickupScheduled,
      updated_at := now,
      tracking_history := sh.tracking_history ++
        [{ timestamp := now, status := ShipmentStatus.PickupScheduled,
           location := none,
           description := "Driver assigned and pickup scheduled",
           updated_by := caller }] }, ?_, rfl, rfl, rfl, rfl, ?_⟩
  · rw [h]
  · rw [h]

/-- Witness for C6: identity 5 (Driver-role User record, not a registered
Driver) self-assigns to `SH000001` while the shipment is `InTransit`. -/
theorem C6_assign_driver_success_witness :
    lookupA sampleS5.drivers 5 = none ∧
    (lookupA sampleS5.shipments "SH000001").map Shipment.status =
      some ShipmentStatus.InTransit ∧
    ∃ upd : Shipment,
      (assign_driver_to_shipment 5 41 "SH000001" 5 sampleS5).1 = Except.ok upd ∧
      upd.driver_id = some 5 ∧
      upd.status = ShipmentStatus.PickupScheduled := by
  refine ⟨by decide, by decide, ?_⟩
  obtain ⟨u, hu⟩ : ∃ u, lookupA sampleS5.users 5 = some u := ⟨_, rfl⟩
  obtain ⟨sh, hsh⟩ : ∃ sh, lookupA sampleS5.shipments "SH000001" = some sh := ⟨_, rfl⟩
  obtain ⟨upd, h1, h2, h3, _⟩ :=
    C6_assign_driver_success sampleS5 5 41 "SH000001" 5 u sh hu (Or.inr rfl) hsh
  exact ⟨upd, h1, h2, h3⟩

/-! ### Claim C10 : the Admin role is caller-supplied and unchecked -/

/-- Claim C10: any identity with no User record may register itself with role
`Admin`; afterwards it passes the Admin branch of `update_shipment_status`
and of `assign_driver_to_shipment` for every existing shipment, whether or
not it is that shipment's sender or driver. -/
theorem C10_admin_role_unchecked (s : State) (p : Principal) (now : Nat)
    (name email phone : String)
    (hnone : lookupA s.users p = none) :
    ∃ u : User,
      (register_user p now name email phone UserType.Admin s).1 = Except.ok u ∧
      u.user_type = UserType.Admin ∧
      (∀ (now2 : Nat) (sid : String) (st : ShipmentStatus) (loc : Option String)
          (descr : String) (sh : Shipment),
        lookupA ((register_user p now name email phone UserType.Admin s).2).shipments sid =
          some sh →
        ∃ sh2, (update_shipment_status p now2 sid st loc descr
            ((register_user p now name email phone UserType.Admin s).2)).1 =
          Except.ok sh2) ∧
      (∀ (now2 : Nat) (sid : String) (did : Principal) (sh : Shipment),
        lookupA ((register_user p now name email phone UserType.Admin s).2).shipments sid =
          some sh →
        ∃ sh2, (assign_driver_to_shipment p now2 sid did
            ((register_user p now name email phone UserType.Admin s).2)).1 =
          Except.ok sh2) := by
  have hnotsome : (lookupA s.users p).isSome = false := by rw [hnone]; rfl
  have hreg1 : (register_user p now name email phone UserType.Admin s).1 =
      Except.ok (User.mk p name email phone UserType.Admin now true) := by
    simp [register_user, hnotsome]
  have hreg2 : (register_user p now name email phone UserType.Admin s).2 =
      { s with users :=
          insertA s.users p (User.mk p name email phone UserType.Admin now true) } := by
    simp [register_user, hnotsome]
  have hu1 : lookupA ((register_user p now name email phone UserType.Admin s).2).users p =
      some (User.mk p name email phone UserType.Admin now true) := by
    rw [hreg2]
    dsimp only
    rw [lookupA_insertA]
    simp
  refine ⟨_, hreg1, rfl, ?_, ?_⟩
  · intro now2 sid st loc descr sh hsh
    exact update_ok_admin _ p now2 sid st loc descr _ sh hu1 rfl hsh
  · intro now2 sid did sh hsh
    have h := assign_success_shape _ p now2 sid did _ sh hu1 (Or.inl rfl) hsh
    dsimp only at h
    exact ⟨_, by rw [h]⟩

/-- Witness for C10: identity 9 registers as Admin on `sampleS2` and then
updates and assigns the shipment it neither sent nor drives. -/
theorem C10_admin_role_unchecked_witness :
    ∃ u : User,
      (register_user 9 50 "eve" "e@x" "557" UserType.Admin sampleS2).1 = Except.ok u ∧
      u.user_type = UserType.Admin ∧
      (∀ (now2 : Nat) (sid : String) (st : ShipmentStatus) (loc : Option String)
          (descr : String) (sh : Shipment),
        lookupA ((register_user 9 50 "eve" "e@x" "557" UserType.Admin sampleS2).2).shipments sid =
          some sh →
        ∃ sh2, (update_shipment_status 9 now2 sid st loc descr
            ((register_user 9 50 "eve" "e@x" "557" UserType.Admin sampleS2).2)).1 =
          Except.ok sh2) ∧
      (∀ (now2 : Nat) (sid : String) (did : Principal) (sh : Shipment),
        lookupA ((register_user 9 50 "eve" "e@x" "557" UserType.Admin sampleS2).2).shipments sid =
          some sh →
        ∃ sh2, (assign_driver_to_shipment 9 now2 sid did
            ((register_user 9 50 "eve" "e@x" "557" UserType.Admin sampleS2).2)).1 =
          Except.ok sh2) :=
  C10_admin_role_unchecked sampleS2 9 50 "eve" "e@x" "557" (by decide)

/-! ### Claim C8 : the platform statistics -/

/-- Claim C8: `get_platform_stats` reports `delivered_shipments` as the count
of `Delivered` shipments and `pending_shipments` as the count of shipments
neither `Delivered` nor `Cancelled`, so `Failed` and `Returned` shipments
count as pending; the function is a pure read of the state and is total. -/
theorem C8_platform_stats (s : State) :
    (get_platform_stats s).total_users = s.users.length ∧
    (get_platform_stats s).total_shipments = s.shipments.length ∧
    (get_platform_stats s).total_drivers = s.drivers.length ∧
    (get_platform_stats s).delivered_shipments =
      ((s.shipments.map Prod.snd).filter
        (fun sh => decide (Shipment.status sh = ShipmentStatus.Delivered))).length ∧
    (get_platform_stats s).pending_shipments =
      ((s.shipments.map Prod.snd).filter
        (fun sh => decide (Shipment.status sh ≠ ShipmentStatus.Delivered ∧
                           Shipment.status sh ≠ ShipmentStatus.Cancelled))).length ∧
    (get_platform_stats s).pending_shipments =
      ((s.shipments.map Prod.snd).filter
        (fun sh => decide (Shipment.status sh ∈
          [ShipmentStatus.Created, ShipmentStatus.PickupScheduled,
           ShipmentStatus.PickedUp, ShipmentStatus.InTransit,
           ShipmentStatus.OutForDelivery, ShipmentStatus.Failed,
           ShipmentStatus.Returned]))).length := by
  refine ⟨rfl, rfl, rfl, ?_, ?_, ?_⟩
  · rfl
  · simp only [get_platform_stats]
    congr 1
    apply List.filter_congr
    intro sh _
    cases h : sh.status <;> simp [h]
  · simp only [get_platform_stats]
    congr 1
    apply List.filter_congr
    intro sh _
    cases h : sh.status <;> simp [h]

/-- Witness for C8 at the concrete delivered state. -/
theorem C8_platform_stats_witness :
    (get_platform_stats sampleS3).total_shipments = 1 ∧
    (get_platform_stats sampleS3).delivered_shipments =
      ((sampleS3.shipments.map Prod.snd).filter
        (fun sh => decide (Shipment.status sh = ShipmentStatus.Delivered))).length :=
  ⟨by decide, (C8_platform_stats sampleS3).2.2.2.1⟩

/-! ### Claim C9 : the cost estimator -/

/-- Claim C9: the cost is a pure function of the package only — addresses
never influence it — computing
`10 + weight * 2 + value / 100 + (5 if fragile)`; at weight 5, value 1000,
fragile it is exactly 35.  (`f64` arithmetic is modelled exactly over `ℚ`;
every quantity in the claimed instance is exactly representable.) -/
theorem C9_cost_estimator (p1 d1 p2 d2 : Address) (pkg : PackageDetails) :
    calculate_shipping_cost p1 d1 pkg = calculate_shipping_cost p2 d2 pkg ∧
    calculate_shipping_cost p1 d1 pkg =
      10 + pkg.weight * 2 + pkg.value / 100 + (if pkg.fragile then 5 else 0) ∧
    (pkg.weight = 5 → pkg.value = 1000 → pkg.fragile = true →
      calculate_shipping_cost p1 d1 pkg = 35) := by
  refine ⟨rfl, ?_, ?_⟩
  · simp only [calculate_shipping_cost]
    ring_nf
  · intro h1 h2 h3
    simp only [calculate_shipping_cost, h1, h2, h3, if_pos]
    norm_num

/-- Witness for C9 at the concrete 35-dollar package. -/
theorem C9_cost_estimator_witness :
    calculate_shipping_cost sampleAddress sampleAddress samplePackage = 35 :=
  (C9_cost_estimator sampleAddress sampleAddress sampleAddress sampleAddress
    samplePackage).2.2 rfl rfl rfl

/-! ### Claim C7 : identifier generation -/

theorem create_shipment_error_state (caller : Principal) (now : Nat)
    (rn rp : String) (pa da : Address) (pd : PackageDetails) (s : State) (e : String)
    (h : (create_shipment caller now rn rp pa da pd s).1 = Except.error e) :
    (create_shipment caller now rn rp pa da pd s).2 = s := by
  cases hu : lookupA s.users caller with
  | none => simp [create_shipment, hu]
  | some u =>
    cases hut : u.user_type <;> simp_all [create_shipment, hu]

theorem createdId_some (s : State) (op : Op) (id : String)
    (h : createdId s op = some id) :
    id = mkShipmentId (s.shipment_counter + 1) ∧
    (applyOp s op).shipment_counter = s.shipment_counter + 1 := by
  cases op with
  | opCreateShipment caller now rn rp pa da pd =>
    simp only [createdId, create_shipment] at h
    cases hu : lookupA s.users caller with
    | none =>
      rw [hu] at h
      dsimp only at h
      cases h
    | some u =>
      rw [hu] at h
      dsimp only at h
      cases hut : u.user_type
      case Customer | StoreOwner =>
        rw [hut] at h
        dsimp only at h
        injection h with h2
        subst h2
        exact ⟨rfl, by simp [applyOp, create_shipment, hu, hut]⟩
      case Driver | Admin =>
        rw [hut] at h
        dsimp only at h
        cases h
  | opRegisterUser caller now name email phone ut => cases h
  | opRegisterDriver caller now name phone vi => cases h
  | opUpdateStatus caller now sid st loc d => cases h
  | opAssignDriver caller now sid did => cases h
  | opCreateReturn caller now sid reason => cases h

theorem createdId_none (s : State) (op : Op) (h : createdId s op = none) :
    (applyOp s op).shipment_counter = s.shipment_counter := by
  cases op with
  | opRegisterUser caller now name email phone ut =>
    simp only [applyOp, register_user]
    split <;> rfl
  | opRegisterDriver caller now name phone vi =>
    simp only [applyOp, register_driver]
    split <;> rfl
  | opCreateShipment caller now rn rp pa da pd =>
    simp only [createdId, create_shipment] at h
    cases hu : lookupA s.users caller with
    | none => simp [applyOp, create_shipment, hu]
    | some u =>
      rw [hu] at h
      dsimp only at h
      cases hut : u.user_type
      case Customer | StoreOwner =>
        rw [hut] at h
        dsimp only at h
        cases h
      case Driver | Admin => simp [applyOp, create_shipment, hu, hut]
  | opUpdateStatus caller now sid st loc d =>
    simp only [applyOp, update_shipment_status]
    cases hs : lookupA s.shipments sid with
    | none => rfl
    | some sh =>
      dsimp only
      split <;> rfl
  | opAssignDriver caller now sid did =>
    simp only [applyOp, assign_driver_to_shipment]
    split
    · rfl
    · cases hs : lookupA s.shipments sid with
      | none => rfl
      | some sh => rfl
  | opCreateReturn caller now sid reason =>
    simp only [applyOp, create_return_request]
    cases hs : lookupA s.shipments sid with
    | none => rfl
    | some sh =>
      dsimp only
      split
      · rfl
      · split <;> rfl

theorem returnedId_some (s : State) (op : Op) (id : String)
    (h : returnedId s op = some id) :
    id = mkReturnId (s.return_counter + 1) ∧
    (applyOp s op).return_counter = s.return_counter + 1 := by
  cases op with
  | opCreateReturn caller now sid reason =>
    simp only [returnedId, create_return_request] at h
    cases hs : lookupA s.shipments sid with
    | none =>
      rw [hs] at h
      dsimp only at h
      cases h
    | some sh =>
      rw [hs] at h
      dsimp only at h
      by_cases h1 : sh.sender_id ≠ caller
      · rw [if_pos h1] at h
        cases h
      · rw [if_neg h1] at h
        by_cases h2 : sh.status ≠ ShipmentStatus.Delivered
        · rw [if_pos h2] at h
          cases h
        · rw [if_neg h2] at h
          dsimp only at h
          injection h with h3
          subst h3
          refine ⟨rfl, ?_⟩
          simp only [applyOp, create_return_request, hs]
          rw [if_neg h1, if_neg h2]
  | opRegisterUser caller now name email phone ut => cases h
  | opRegisterDriver caller now name phone vi => cases h
  | opCreateShipment caller now rn rp pa da pd => cases h
  | opUpdateStatus caller now sid st loc d => cases h
  | opAssignDriver caller now sid did => cases h

theorem returnedId_none (s : State) (op : Op) (h : returnedId s op = none) :
    (applyOp s op).return_counter = s.return_counter := by
  cases op with
  | opRegisterUser caller now name email phone ut =>
    simp only [applyOp, register_user]
    split <;> rfl
  | opRegisterDriver caller now name phone vi =>
    simp only [applyOp, register_driver]
    split <;> rfl
  | opCreateShipment caller now rn rp pa da pd =>
    simp only [applyOp, create_shipment]
    cases hu : lookupA s.users caller with
    | none => rfl
    | some u =>
      dsimp only
      cases hut : u.user_type
      case Customer | StoreOwner => rfl
      case Driver | Admin => rfl
  | opUpdateStatus caller now sid st loc d =>
    simp only [applyOp, update_shipment_status]
    cases hs : lookupA s.shipments sid with
    | none => rfl
    | some sh =>
      dsimp only
      split <;> rfl
  | opAssignDriver caller now sid did =>
    simp only [applyOp, assign_driver_to_shipment]
    split
    · rfl
    · cases hs : lookupA s.shipments sid with
      | none => rfl
      | some sh => rfl
  | opCreateReturn caller now sid reason =>
    simp only [returnedId, create_return_request] at h
    cases hs : lookupA s.shipments sid with
    | none => simp [applyOp, create_return_request, hs]
    | some sh =>
      rw [hs] at h
      dsimp only at h
      by_cases h1 : sh.sender_id ≠ caller
      · simp only [applyOp, create_return_request, hs]
        rw [if_pos h1]
      · rw [if_neg h1] at h
        by_cases h2 : sh.status ≠ ShipmentStatus.Delivered
        · simp only [applyOp, create_return_request, hs]
          rw [if_neg h1, if_pos h2]
        · rw [if_neg h2] at h
          dsimp only at h
          cases h


theorem issuedShipmentIds_spec (ops : List Op) : ∀ s : State,
    s.shipment_counter ≤ (runOps s ops).shipment_counter ∧
    issuedShipmentIds s ops =
      (List.range ((runOps s ops).shipment_counter - s.shipment_counter)).map
        (fun k => mkShipmentId (s.shipment_counter + 1 + k)) := by
  induction ops with
  | nil =>
    intro s
    exact ⟨Nat.le_refl _, by simp [issuedShipmentIds, runOps]⟩
  | cons op rest ih =>
    intro s
    have hrun : runOps s (op :: rest) = runOps (applyOp s op) rest := rfl
    obtain ⟨ihLe, ihEq⟩ := ih (applyOp s op)
    cases hc : createdId s op with
    | none =>
      have hcount := createdId_none s op hc
      rw [hcount] at ihLe ihEq
      constructor
      · rw [hrun]
        exact ihLe
      · show (createdId s op).toList ++ issuedShipmentIds (applyOp s op) rest =
          (List.range ((runOps s (op :: rest)).shipment_counter - s.shipment_counter)).map
            (fun k => mkShipmentId (s.shipment_counter + 1 + k))
        rw [hc, hrun]
        simpa using ihEq
    | some id =>
      obtain ⟨hid, hcount⟩ := createdId_some s op id hc
      rw [hcount] at ihLe ihEq
      constructor
      · rw [hrun]
        omega
      · show (createdId s op).toList ++ issuedShipmentIds (applyOp s op) rest =
          (List.range ((runOps s (op :: rest)).shipment_counter - s.shipment_counter)).map
            (fun k => mkShipmentId (s.shipment_counter + 1 + k))
        rw [hc, hrun, ihEq]
        subst hid
        have hF : (runOps (applyOp s op) rest).shipment_counter - s.shipment_counter =
            ((runOps (applyOp s op) rest).shipment_counter - (s.shipment_counter + 1)) + 1 := by
          omega
        rw [hF, List.range_succ_eq_map]
        simp only [List.map_cons, List.map_map, Option.toList_some, List.cons_append,
          List.nil_append, Nat.add_zero]
        congr 1
        apply List.map_congr_left
        intro k _
        show mkShipmentId (s.shipment_counter + 1 + 1 + k) =
          mkShipmentId (s.shipment_counter + 1 + (k + 1))
        congr 1
        omega

theorem issuedReturnIds_spec (ops : List Op) : ∀ s : State,
    s.return_counter ≤ (runOps s ops).return_counter ∧
    issuedReturnIds s ops =
      (List.range ((runOps s ops).return_counter - s.return_counter)).map
        (fun k => mkReturnId (s.return_counter + 1 + k)) := by
  induction ops with
  | nil =>
    intro s
    exact ⟨Nat.le_refl _, by simp [issuedReturnIds, runOps]⟩
  | cons op rest ih =>
    intro s
    have hrun : runOps s (op :: rest) = runOps (applyOp s op) rest := rfl
    obtain ⟨ihLe, ihEq⟩ := ih (applyOp s op)
    cases hc : returnedId s op with
    | none =>
      have hcount := returnedId_none s op hc
      rw [hcount] at ihLe ihEq
      constructor
      · rw [hrun]
        exact ihLe
      · show (returnedId s op).toList ++ issuedReturnIds (applyOp s op) rest =
          (List.range ((runOps s (op :: rest)).return_counter - s.return_counter)).map
            (fun k => mkReturnId (s.return_counter + 1 + k))
        rw [hc, hrun]
        simpa using ihEq
    | some id =>
      obtain ⟨hid, hcount⟩ := returnedId_some s op id hc
      rw [hcount] at ihLe ihEq
      constructor
      · rw [hrun]
        omega
      · show (returnedId s op).toList ++ issuedReturnIds (applyOp s op) rest =
          (List.range ((runOps s (op :: rest)).return_counter - s.return_counter)).map
            (fun k => mkReturnId (s.return_counter + 1 + k))
        rw [hc, hrun, ihEq]
        subst hid
        have hF : (runOps (applyOp s op) rest).return_counter - s.return_counter =
            ((runOps (applyOp s op) rest).return_counter - (s.return_counter + 1)) + 1 := by
          omega
        rw [hF, List.range_succ_eq_map]
        simp only [List.map_cons, List.map_map, Option.toList_some, List.cons_append,
          List.nil_append, Nat.add_zero]
        congr 1
        apply List.map_congr_left
        intro k _
        show mkReturnId (s.return_counter + 1 + 1 + k) =
          mkReturnId (s.return_counter + 1 + (k + 1))
        congr 1
        omega

/-- Claim C7: along any call sequence from the empty state the successful
`create_shipment` calls issue exactly the ids `SH000001 … SH{N:06}` in order
(so their numeric suffixes strictly increase), and these are pairwise
distinct; the return-request ids are exactly `RT000001 … RT{M:06}` from an
independent counter; a failed `create_shipment` leaves the whole state — in
particular the counter — untouched. -/
theorem C7_identifier_generation (ops : List Op) :
    issuedShipmentIds initState ops =
      (List.range ((runOps initState ops).shipment_counter)).map
        (fun k => mkShipmentId (k + 1)) ∧
    (issuedShipmentIds initState ops).Nodup ∧
    issuedReturnIds initState ops =
      (List.range ((runOps initState ops).return_counter)).map
        (fun k => mkReturnId (k + 1)) ∧
    (∀ (caller : Principal) (now : Nat) (rn rp : String) (pa da : Address)
        (pd : PackageDetails) (s : State) (e : String),
      (create_shipment caller now rn rp pa da pd s).1 = Except.error e →
      (create_shipment caller now rn rp pa da pd s).2 = s) := by
  obtain ⟨_, hEq⟩ := issuedShipmentIds_spec ops initState
  obtain ⟨_, hEqR⟩ := issuedReturnIds_spec ops initState
  have h1 : issuedShipmentIds initState ops =
      (List.range ((runOps initState ops).shipment_counter)).map
        (fun k => mkShipmentId (k + 1)) := by
    rw [hEq]
    have h0 : initState.shipment_counter = 0 := rfl
    rw [h0, Nat.sub_zero]
    apply List.map_congr_left
    intro k _
    congr 1
    omega
  refine ⟨h1, ?_, ?_, ?_⟩
  · rw [h1]
    apply List.Nodup.map
    · intro a b hab
      have := mkShipmentId_injective hab
      omega
    · exact List.nodup_range _
  · rw [hEqR]
    have h0 : initState.return_counter = 0 := rfl
    rw [h0, Nat.sub_zero]
    apply List.map_congr_left
    intro k _
    congr 1
    omega
  · intro caller now rn rp pa da pd s e h
    exact create_shipment_error_state caller now rn rp pa da pd s e h

/-- Witness for C7 at the concrete sequence with one failing create. -/
theorem C7_identifier_generation_witness :
    issuedShipmentIds initState sampleOps = ["SH000001", "SH000002"] ∧
    (issuedShipmentIds initState sampleOps).Nodup :=
  ⟨by decide, (C7_identifier_generation sampleOps).2.1⟩

end Idev
